import Mathlib

/-!
Shallow embedding of the client-side synchronization and test-validation
logic of the frost-alert-hub repository: the local view cache kept in the
`Dashboard` and `MapView` components (insert/update handlers of
`setupRealtimeSubscription`, the `loadMapData` initial fetch and the
`avgTemp` statistic) and the validation harness of the `TestingSuite`
component (`runNotificationResponseTest`, `runMultipleAlertsTest`,
`runNetworkRobustnessTest`, `runAllTests`).
-/

namespace FrostAlert

/-- Detection severity enum, from the `IceDetection` type in
`Dashboard.tsx` / `MapView.tsx`. -/
inductive Severity
  | low
  | medium
  | high
  | critical
deriving DecidableEq, Repr

/-- Detection status enum (`active | investigating | resolved`). -/
inductive DetStatus
  | active
  | investigating
  | resolved
deriving DecidableEq, Repr

/-- Sensor status enum (`online | offline | maintenance`). -/
inductive SensorStatus
  | online
  | offline
  | maintenance
deriving DecidableEq, Repr

/-- The `IceDetection` record type of `Dashboard.tsx` / `MapView.tsx`.
Numeric fields are modelled as rationals; `detected_at` stays the string
the backend delivers (it is never parsed by the cache logic). -/
structure IceDetection where
  id : String
  sensor_id : String
  latitude : ℚ
  longitude : ℚ
  severity : Severity
  temperature : Option ℚ
  humidity : Option ℚ
  road_condition : Option String
  status : DetStatus
  detected_at : String
deriving DecidableEq, Repr

/-- The `Sensor` record type of `Dashboard.tsx` / `MapView.tsx`. -/
structure Sensor where
  id : String
  sensor_id : String
  name : String
  latitude : ℚ
  longitude : ℚ
  status : SensorStatus
  last_ping : Option String
deriving DecidableEq, Repr

/-! ### Local view cache operations

`Dashboard.tsx` INSERT handler on `ice_detections`
(`setDetections (prev => [newDetection, ...prev])`): an unconditional
prepend, with no check whether the id is already cached. -/

/-- Dashboard insert handler for a detection event: prepend the new
record to the cached list (Dashboard.tsx lines 79-81). -/
def dashboardApplyInsert (cache : List IceDetection) (r : IceDetection) :
    List IceDetection :=
  r :: cache

/-- MapView insert handler: prepend only when the incoming record has
status `active`, otherwise ignore the event (MapView.tsx lines 100-107). -/
def mapApplyInsert (cache : List IceDetection) (r : IceDetection) :
    List IceDetection :=
  if r.status = DetStatus.active then r :: cache else cache

/-- MapView update handler on `ice_detections`: replace every cached
record whose `id` equals the payload's `id` by the payload
(`prev.map (d => d.id === updatedDetection.id ? updatedDetection : d)`,
MapView.tsx lines 116-121). -/
def mapApplyUpdate (cache : List IceDetection) (r : IceDetection) :
    List IceDetection :=
  cache.map (fun d => if d.id = r.id then r else d)

/-- Dashboard update handler on `sensors`: same replace-by-id map
(Dashboard.tsx lines 98-103). -/
def sensorsApplyUpdate (cache : List Sensor) (r : Sensor) : List Sensor :=
  cache.map (fun s => if s.id = r.id then r else s)

/-- MapView initial load: the query `.eq("status", "active")` returns only
the rows whose status is `active` (MapView.tsx lines 60-64). -/
def loadMapDetections (rows : List IceDetection) : List IceDetection :=
  rows.filter (fun d => d.status = DetStatus.active)

/-! ### Dashboard `avgTemp` statistic (Dashboard.tsx lines 155-157)

```
const avgTemp = detections.length > 0
  ? detections.reduce((sum, d) => sum + (d.temperature || 0), 0)
      / detections.filter(d => d.temperature).length
  : 0;
```
-/

/-- JavaScript truthiness of a `number | null` temperature: `null` and `0`
are falsy, every other rational is truthy. -/
def jsTruthy (t : Option ℚ) : Bool :=
  match t with
  | none => false
  | some x => decide (x ≠ 0)

/-- Numerator of `avgTemp`: the reduce summing `d.temperature || 0` over
all cached detections. -/
def sumTemps (ds : List IceDetection) : ℚ :=
  (ds.map (fun d => d.temperature.getD 0)).sum

/-- Denominator of `avgTemp`: the length of
`detections.filter(d => d.temperature)`. -/
def truthyTempCount (ds : List IceDetection) : Nat :=
  (ds.filter (fun d => jsTruthy d.temperature)).length

/-- IEEE division by a count: a zero divisor yields a non-finite value
(`NaN` or `±Infinity`), modelled as `none`; otherwise the exact quotient. -/
def jsDivFinite (num : ℚ) (den : Nat) : Option ℚ :=
  if den = 0 then none else some (num / den)

/-- The `avgTemp` computation: `none` stands for a non-finite result. -/
def avgTemp (ds : List IceDetection) : Option ℚ :=
  if ds.length > 0 then jsDivFinite (sumTemps ds) (truthyTempCount ds)
  else some 0

/-! ### Validation harness (`TestingSuite`, src/unnamed/part_000)

Each test produces a `TestResult`-shaped outcome (`status`, optional
`duration`, optional `details`), and manages one realtime channel.  The
asynchronous environment is abstracted into an explicit execution record
per test: whether the insert writes fail, and which matching events the
channel delivers during the waiting windows. -/

/-- The `status` field of the `TestResult` type
(`"idle" | "running" | "passed" | "failed"`). -/
inductive TestStatus
  | idle
  | running
  | passed
  | failed
deriving DecidableEq, Repr

/-- The observable outcome a test writes into its `TestResult` entry when
it finishes. -/
structure TestOutcome where
  status : TestStatus
  duration : Option Nat
  details : Option String
deriving DecidableEq, Repr

/-- A finished test run: its outcome plus the channel bookkeeping —
whether the test's `supabase.channel(...)` was created on this path and
whether `supabase.removeChannel` was called on it before returning. -/
structure TestRun where
  outcome : TestOutcome
  channelCreated : Bool
  channelReleased : Bool
deriving DecidableEq, Repr

/-- JavaScript `String.prototype.startsWith`, on the underlying
character lists. -/
def jsStartsWith (s pre : String) : Bool :=
  List.isPrefixOf pre.data s.data

/-! #### Test 1 — Notification Response Time (`runNotificationResponseTest`) -/

/-- Environment of one Test 1 run: `insertError` is the message of a
failed `ice_detections` insert (the `catch` path), `arrival` is the
elapsed time `Date.now() - startTime` at which the channel delivered the
first INSERT event, when one was delivered before the 5000 ms wait
expired. -/
structure Test1Exec where
  insertError : Option String
  arrival : Option Nat
deriving DecidableEq, Repr

/-- Test 1 (`runNotificationResponseTest`): on the first INSERT event,
`passed` iff `responseTime <= 3000`, with `duration` and a message
carrying the measured time; if no event arrives in the 5000 ms wait,
`failed` with the timeout message; a write error takes the `catch` path.
Every path calls `supabase.removeChannel(channel)`. -/
def runTest1 (e : Test1Exec) : TestRun :=
  match e.insertError with
  | some msg =>
      { outcome := { status := TestStatus.failed, duration := none,
                     details := some ("Error: " ++ msg) },
        channelCreated := true, channelReleased := true }
  | none =>
      match e.arrival with
      | some t =>
          if t ≤ 3000 then
            { outcome := { status := TestStatus.passed, duration := some t,
                           details := some ("Notification received in " ++
                             toString t ++ "ms") },
              channelCreated := true, channelReleased := true }
          else
            { outcome := { status := TestStatus.failed, duration := some t,
                           details := some ("Response time " ++ toString t ++
                             "ms exceeded 3 second limit") },
              channelCreated := true, channelReleased := true }
      | none =>
          { outcome := { status := TestStatus.failed, duration := none,
                         details := some ("No notification received within 5 seconds") },
            channelCreated := true, channelReleased := true }

/-! #### Test 2 — Reliability Under Multiple Alerts (`runMultipleAlertsTest`) -/

/-- The tag prefix of Test 2's synthetic detections
(`MULTI-TEST-${Date.now()}-${i}`). -/
def multiTag : String := "MULTI-TEST-"

/-- Number of synthetic detections Test 2 issues (`totalEvents = 10`). -/
def totalEvents : Nat := 10

/-- The sensor ids Test 2 writes, in write order. -/
def multiWriteIds (now : Nat) : List String :=
  (List.range totalEvents).map
    (fun i => multiTag ++ toString now ++ "-" ++ toString i)

/-- The channel callback's counter: how many delivered INSERT events carry
a `sensor_id` starting with `MULTI-TEST-`. -/
def countMultiTagged (events : List String) : Nat :=
  (events.filter (fun s => jsStartsWith s multiTag)).length

/-- The detail string of Test 2,
`Received ${receivedCount}/${totalEvents} notifications (${successRate.toFixed(1)}%)`.
For a count `n` the success rate `(n / 10) * 100` is the exact integer
`10 * n` in IEEE doubles, so `toFixed(1)` renders it as `10*n` followed by
`.0`. -/
def test2Details (n : Nat) : String :=
  "Received " ++ toString n ++ "/" ++ toString totalEvents ++
    " notifications (" ++ toString (10 * n) ++ ".0%)"

/-- Environment of one Test 2 run: whether `Promise.all` of the ten
inserts rejected, and the `sensor_id`s of the INSERT events the channel
delivered before the verdict is computed. -/
structure Test2Exec where
  insertError : Option String
  events : List String
deriving DecidableEq, Repr

/-- Test 2 (`runMultipleAlertsTest`): count the `MULTI-TEST-`-tagged
events; `successRate = (receivedCount / totalEvents) * 100`; `passed` iff
the rate is exactly 100; the detail message reports the count and the
percentage on both verdicts. Both the success path and the `catch` path
call `supabase.removeChannel(channel)`. -/
def runTest2 (e : Test2Exec) : TestRun :=
  match e.insertError with
  | some msg =>
      { outcome := { status := TestStatus.failed, duration := none,
                     details := some ("Error: " ++ msg) },
        channelCreated := true, channelReleased := true }
  | none =>
      let receivedCount := countMultiTagged e.events
      let successRate : ℚ := (receivedCount : ℚ) / (totalEvents : ℚ) * 100
      let passed := successRate = 100
      { outcome := { status := if passed then TestStatus.passed else TestStatus.failed,
                     duration := none,
                     details := some (test2Details receivedCount) },
        channelCreated := true, channelReleased := true }

/-- Abstract effect actions of a test body, used to state the shape of
Test 2's write loop. -/
inductive Action
  | openChannel (name : String)
  | closeChannel (name : String)
  | write (sensorId : String)
  | wait (ms : Nat)
deriving DecidableEq, Repr

/-- The write loop of Test 2: each iteration pushes one insert and then
awaits a 100 ms delay (`setTimeout(resolve, 100)` inside the `for` loop). -/
def test2WriteLoop : List String → List Action
  | [] => []
  | id :: rest => Action.write id :: Action.wait 100 :: test2WriteLoop rest

/-- The effect trace of a Test 2 run that reaches the verdict: subscribe,
the 500 ms readiness wait, the ten spaced writes, the 3000 ms grace wait,
then the channel release. -/
def test2Trace (now : Nat) : List Action :=
  Action.openChannel ("test-multiple") :: Action.wait 500 ::
    (test2WriteLoop (multiWriteIds now) ++
      [Action.wait 3000, Action.closeChannel ("test-multiple")])

/-- The writes of a trace, in order. -/
def writesOf : List Action → List String
  | [] => []
  | Action.write id :: rest => id :: writesOf rest
  | _ :: rest => writesOf rest

/-- `true` when every write of the trace is immediately followed by a
`wait delay` action. -/
def writesSpacedBy (delay : Nat) : List Action → Bool
  | [] => true
  | Action.write _ :: rest =>
      (match rest with
       | Action.wait d :: _ => decide (d = delay)
       | _ => false) && writesSpacedBy delay rest
  | _ :: rest => writesSpacedBy delay rest

/-! #### Test 3 — Network Robustness (`runNetworkRobustnessTest`) -/

/-- The tag prefix of Test 3's post-reconnect detection
(`NET-TEST-AFTER-${Date.now()}`). -/
def netAfterTag : String := "NET-TEST-AFTER-"

/-- How many delivered events carry the `NET-TEST-AFTER-` prefix
(the `receivedAfterReconnect` counter). -/
def countAfterTagged (events : List String) : Nat :=
  (events.filter (fun s => jsStartsWith s netAfterTag)).length

/-- Where a Test 3 run throws, if anywhere: the "before" insert is issued
before the channel is created, the "after" insert (and the waits around
it) after. -/
inductive Test3Error
  | ok
  | failBeforeInsert
  | failAfterInsert
deriving DecidableEq, Repr

/-- Environment of one Test 3 run. -/
structure Test3Exec where
  err : Test3Error
  events : List String
deriving DecidableEq, Repr

/-- Test 3 (`runNetworkRobustnessTest`): `passed` iff
`receivedAfterReconnect > 0`. The channel is created only after the
"before" insert succeeded; the success path releases it, but the `catch`
block has no `removeChannel` call, so an error thrown after the channel
was created leaves it unreleased. -/
def runTest3 (e : Test3Exec) : TestRun :=
  match e.err with
  | Test3Error.failBeforeInsert =>
      { outcome := { status := TestStatus.failed, duration := none,
                     details := some ("Error: insert before reconnect failed") },
        channelCreated := false, channelReleased := false }
  | Test3Error.failAfterInsert =>
      { outcome := { status := TestStatus.failed, duration := none,
                     details := some ("Error: insert after reconnect failed") },
        channelCreated := true, channelReleased := false }
  | Test3Error.ok =>
      let passed := 0 < countAfterTagged e.events
      { outcome := { status := if passed then TestStatus.passed else TestStatus.failed,
                     duration := none,
                     details := some (if passed then
                         "All messages delivered after network restoration"
                       else "Message loss detected after network restoration") },
        channelCreated := true, channelReleased := true }

/-! #### Suite-level run (`runAllTests`) -/

/-- One entry of the `tests` state array (`TestResult`). -/
structure TestEntry where
  testName : String
  status : TestStatus
  duration : Option Nat
  details : Option String
  constraint : Option String
deriving DecidableEq, Repr

/-- The initial `tests` state of the `TestingSuite` component. -/
def initialTests : List TestEntry :=
  [ { testName := "Notification Response Time", status := TestStatus.idle,
      duration := none, details := none, constraint := some ("≤ 3 seconds") },
    { testName := "Reliability Under Multiple Alerts", status := TestStatus.idle,
      duration := none, details := none, constraint := some ("100% delivery rate") },
    { testName := "Network Robustness", status := TestStatus.idle,
      duration := none, details := none, constraint := some ("No message loss") } ]

/-- The reset performed at the top of `runAllTests`: every entry's status
becomes `idle`, `duration` and `details` become `undefined`; `testName`
and `constraint` are kept. -/
def resetTests (ts : List TestEntry) : List TestEntry :=
  ts.map (fun t => { t with status := TestStatus.idle,
                            duration := none, details := none })

/-- `updateTestStatus` applying a finished test's outcome to the entry of
the given name (the map keyed on `testName`). -/
def applyOutcome (name : String) (o : TestOutcome) (ts : List TestEntry) :
    List TestEntry :=
  ts.map (fun t =>
    if t.testName = name then
      { t with status := o.status, duration := o.duration, details := o.details }
    else t)

/-- Environment of a whole suite run: one execution record per test. -/
structure SuiteExec where
  e1 : Test1Exec
  e2 : Test2Exec
  e3 : Test3Exec
deriving DecidableEq, Repr

/-- Delay awaited between consecutive tests in `runAllTests`
(`setTimeout(resolve, 1000)`). -/
def interTestDelayMs : Nat := 1000

/-- `runAllTests`: reset every entry, then run Test 1, Test 2 and Test 3
strictly in that order (each `await`ed before the next starts, with the
fixed `interTestDelayMs` wait in between), folding each finished test's
outcome into the state. -/
def runAllTests (ts : List TestEntry) (ex : SuiteExec) : List TestEntry :=
  let ts0 := resetTests ts
  let ts1 := applyOutcome ("Notification Response Time") (runTest1 ex.e1).outcome ts0
  let ts2 := applyOutcome ("Reliability Under Multiple Alerts") (runTest2 ex.e2).outcome ts1
  applyOutcome ("Network Robustness") (runTest3 ex.e3).outcome ts2

/-! ### Concrete records used by witnesses and counterexamples -/

/-- A concrete active detection, shaped like the harness's synthetic
writes. -/
def sampleDet : IceDetection :=
  { id := "d1", sensor_id := "SENSOR-01", latitude := 40, longitude := -74,
    severity := Severity.medium, temperature := some (-2), humidity := some 85,
    road_condition := some ("icy patch"), status := DetStatus.active,
    detected_at := "2025-11-11T10:00:00Z" }

/-- A second detection with a different id. -/
def sampleDet2 : IceDetection :=
  { sampleDet with id := "d2", sensor_id := "SENSOR-02",
                   detected_at := "2025-11-11T09:00:00Z" }

/-- An update payload carrying `sampleDet`'s id with status `resolved`. -/
def resolvedDet : IceDetection :=
  { sampleDet with status := DetStatus.resolved }

/-- A concrete sensor record. -/
def sampleSensor : Sensor :=
  { id := "s1", sensor_id := "SEN-01", name := "North Bridge",
    latitude := 42, longitude := -71, status := SensorStatus.online,
    last_ping := none }

/-- Three active detections whose `detected_at` values are not in arrival
order (A is the newest timestamp, B the oldest). -/
def detA : IceDetection :=
  { sampleDet with id := "a", detected_at := "2025-03-01T00:00:00Z" }

/-- See `detA`. -/
def detB : IceDetection :=
  { sampleDet with id := "b", detected_at := "2025-01-01T00:00:00Z" }

/-- See `detA`. -/
def detC : IceDetection :=
  { sampleDet with id := "c", detected_at := "2025-02-01T00:00:00Z" }

/-- A detection whose temperature is `null`. -/
def detNullTemp : IceDetection :=
  { sampleDet with id := "dn", temperature := none }

/-- A detection whose temperature is exactly `0`. -/
def detZeroTemp : IceDetection :=
  { sampleDet with id := "dz", temperature := some 0 }

/-- A suite execution in which every test hits its write-error path,
keeping all detail strings literal. -/
def suiteWitnessExec : SuiteExec :=
  { e1 := { insertError := some ("boom1"), arrival := none },
    e2 := { insertError := some ("boom2"), events := [] },
    e3 := { err := Test3Error.failBeforeInsert, events := [] } }

/-- The entry `suiteWitnessExec` produces for Test 1. -/
def suiteWitnessEntry : TestEntry :=
  { testName := "Notification Response Time", status := TestStatus.failed,
    duration := none, details := some ("Error: boom1"),
    constraint := some ("≤ 3 seconds") }

/-! ## Theorems -/

/-- C1: the insert handlers have no idempotence guard — re-delivering a
record whose id is already cached duplicates it. Evaluating both
components' handlers at the failing input (inserting `sampleDet` twice
into an empty cache) yields a snapshot with two entries carrying that id,
refuting the claimed no-op on an existing id. -/
theorem applyInsert_same_id_twice_duplicates :
    (dashboardApplyInsert (dashboardApplyInsert [] sampleDet) sampleDet).length = 2 ∧
    ((dashboardApplyInsert (dashboardApplyInsert [] sampleDet) sampleDet).filter
        (fun d => d.id = sampleDet.id)).length = 2 ∧
    (mapApplyInsert (mapApplyInsert [] sampleDet) sampleDet).length = 2 := by
  decide

/-- C7: `applyUpdate` (MapView detections handler and Dashboard sensors
handler) maps each cached record to the payload exactly when the ids
match; the cache length never changes, and when no cached record carries
the payload's id the cache is left exactly as it was (no
upsert-on-missing). -/
theorem applyUpdate_replaces_matching_and_drops_unknown
    (dcache : List IceDetection) (r : IceDetection)
    (scache : List Sensor) (u : Sensor) :
    (∀ i : Nat, (mapApplyUpdate dcache r)[i]? =
        (dcache[i]?).map (fun d => if d.id = r.id then r else d)) ∧
    (mapApplyUpdate dcache r).length = dcache.length ∧
    ((∀ d ∈ dcache, d.id ≠ r.id) → mapApplyUpdate dcache r = dcache) ∧
    (∀ i : Nat, (sensorsApplyUpdate scache u)[i]? =
        (scache[i]?).map (fun s => if s.id = u.id then u else s)) ∧
    (sensorsApplyUpdate scache u).length = scache.length ∧
    ((∀ s ∈ scache, s.id ≠ u.id) → sensorsApplyUpdate scache u = scache) := by
  refine ⟨?_, ?_, ?_, ?_, ?_, ?_⟩
  · intro i; simp [mapApplyUpdate]
  · simp [mapApplyUpdate]
  · intro h
    have : dcache.map (fun d => if d.id = r.id then r else d) =
        dcache.map id := List.map_congr_left (fun d hd => if_neg (h d hd))
    simpa [mapApplyUpdate] using this
  · intro i; simp [sensorsApplyUpdate]
  · simp [sensorsApplyUpdate]
  · intro h
    have : scache.map (fun s => if s.id = u.id then u else s) =
        scache.map id := List.map_congr_left (fun s hs => if_neg (h s hs))
    simpa [sensorsApplyUpdate] using this

/-- Witness for C7: an update whose id matches nothing leaves a concrete
cache untouched. -/
theorem applyUpdate_replaces_matching_and_drops_unknown_witness :
    mapApplyUpdate [sampleDet] sampleDet2 = [sampleDet] ∧
    sensorsApplyUpdate [] sampleSensor = [] := by
  refine ⟨?_, ?_⟩
  · exact (applyUpdate_replaces_matching_and_drops_unknown
      [sampleDet] sampleDet2 [] sampleSensor).2.2.1 (by decide)
  · exact (applyUpdate_replaces_matching_and_drops_unknown
      [sampleDet] sampleDet2 [] sampleSensor).2.2.2.2.2 (by decide)

/-- C8: inserting A then B then C prepends each record, so the snapshot
lists C, B, A before the prior contents; the records' `detected_at`
fields are universally quantified, hence never consulted. For the MapView
cache the same holds whenever the three records have status `active`. -/
theorem applyInsert_newest_first (s : List IceDetection) (A B C : IceDetection) :
    dashboardApplyInsert (dashboardApplyInsert (dashboardApplyInsert s A) B) C =
      C :: B :: A :: s ∧
    (A.status = DetStatus.active → B.status = DetStatus.active →
      C.status = DetStatus.active →
      mapApplyInsert (mapApplyInsert (mapApplyInsert s A) B) C =
        C :: B :: A :: s) := by
  refine ⟨rfl, ?_⟩
  intro hA hB hC
  simp [mapApplyInsert, hA, hB, hC]

/-- Witness for C8: three concrete detections whose `detected_at`
timestamps are out of arrival order still land newest-arrival-first. -/
theorem applyInsert_newest_first_witness :
    mapApplyInsert (mapApplyInsert (mapApplyInsert [] detA) detB) detC =
      [detC, detB, detA] :=
  (applyInsert_newest_first [] detA detB detC).2 rfl rfl rfl

/-- C9: `avgTemp` divides the sum of `temperature || 0` over all cached
detections by the count of truthy temperatures; on a non-empty list whose
temperatures are all `null` or exactly `0` that count is `0` and the
result is non-finite (`none`); a zero temperature is summed (adding `0`)
but excluded from the divisor. -/
theorem avgTemp_zero_divisor (ds : List IceDetection) :
    (ds ≠ [] → avgTemp ds = jsDivFinite (sumTemps ds) (truthyTempCount ds)) ∧
    (ds ≠ [] → (∀ d ∈ ds, d.temperature = none ∨ d.temperature = some 0) →
      truthyTempCount ds = 0 ∧ avgTemp ds = none) ∧
    (∀ d rest, sumTemps (d :: rest) = d.temperature.getD 0 + sumTemps rest) ∧
    (∀ d rest, d.temperature = some 0 →
      truthyTempCount (d :: rest) = truthyTempCount rest) := by
  refine ⟨?_, ?_, ?_, ?_⟩
  · intro h
    simp [avgTemp, List.length_pos.mpr h]
  · intro h hall
    have hcount : truthyTempCount ds = 0 := by
      have : ds.filter (fun d => jsTruthy d.temperature) = [] := by
        rw [List.filter_eq_nil_iff]
        intro d hd
        rcases hall d hd with ht | ht <;> simp [jsTruthy, ht]
      simp [truthyTempCount, this]
    refine ⟨hcount, ?_⟩
    simp [avgTemp, List.length_pos.mpr h, jsDivFinite, hcount]
  · intro d rest
    simp [sumTemps]
  · intro d rest ht
    simp [truthyTempCount, jsTruthy, ht]

/-- Witness for C9: a concrete non-empty list holding one `null` and one
zero temperature has divisor `0` and a non-finite average. -/
theorem avgTemp_zero_divisor_witness :
    truthyTempCount [detNullTemp, detZeroTemp] = 0 ∧
    avgTemp [detNullTemp, detZeroTemp] = none := by
  exact (avgTemp_zero_divisor [detNullTemp, detZeroTemp]).2.1 (by decide)
    (by decide)

/-- C10 counterexample: the state `[sampleDet]` is reachable in the
MapView cache (one active insert on the empty cache), and an UPDATE event
whose payload carries the same id with status `resolved` is applied
unconditionally, leaving a cached detection whose status is not
`active`. -/
theorem map_update_breaks_active_invariant :
    mapApplyInsert [] sampleDet = [sampleDet] ∧
    mapApplyUpdate [sampleDet] resolvedDet = [resolvedDet] ∧
    resolvedDet.id = sampleDet.id ∧
    resolvedDet.status ≠ DetStatus.active := by
  decide

/-- Helper for C10: any sequence of insert events preserves the all-active
property of the MapView cache. -/
theorem foldl_mapApplyInsert_active (ins : List IceDetection) :
    ∀ cache : List IceDetection,
      (∀ d ∈ cache, d.status = DetStatus.active) →
      ∀ d ∈ ins.foldl mapApplyInsert cache, d.status = DetStatus.active := by
  induction ins with
  | nil => intro cache h d hd; exact h d hd
  | cons r rest ih =>
      intro cache h d hd
      refine ih (mapApplyInsert cache r) ?_ d hd
      intro x hx
      by_cases hr : r.status = DetStatus.active
      · simp only [mapApplyInsert, if_pos hr, List.mem_cons] at hx
        rcases hx with rfl | hx
        · exact hr
        · exact h x hx
      · simp only [mapApplyInsert, if_neg hr] at hx
        exact h x hx

/-- C10 (amended): every detection in the MapView cache has status
`active` in every state reachable from the initial `.eq("status",
"active")` load by insert events alone; the unconditional update handler
is what breaks the invariant (see the counterexample). -/
theorem map_cache_active_after_load_and_inserts
    (rows ins : List IceDetection) :
    ∀ d ∈ ins.foldl mapApplyInsert (loadMapDetections rows),
      d.status = DetStatus.active := by
  refine foldl_mapApplyInsert_active ins (loadMapDetections rows) ?_
  intro d hd
  simp only [loadMapDetections, List.mem_filter, decide_eq_true_eq] at hd
  exact hd.2

/-- Witness for C10's amended theorem: a concrete loaded row is active in
the loaded-then-inserted cache. -/
theorem map_cache_active_after_load_and_inserts_witness :
    sampleDet.status = DetStatus.active :=
  map_cache_active_after_load_and_inserts [sampleDet] [sampleDet2] sampleDet
    (by decide)

/-- Helper: a list is a `List.isPrefixOf` of itself followed by anything. -/
theorem isPrefixOf_self_append {α : Type} [DecidableEq α] (l t : List α) :
    List.isPrefixOf l (l ++ t) = true := by
  induction l with
  | nil => simp [List.isPrefixOf]
  | cons a l ih => simp [List.isPrefixOf, ih]

/-- Helper: every id Test 2 writes carries the `MULTI-TEST-` tag. -/
theorem multiWriteIds_tagged (now : Nat) :
    ∀ s ∈ multiWriteIds now, jsStartsWith s multiTag = true := by
  intro s hs
  simp only [multiWriteIds, List.mem_map] at hs
  obtain ⟨i, _, rfl⟩ := hs
  simp [jsStartsWith, String.data_append, List.append_assoc,
    isPrefixOf_self_append]

/-- Helper: the writes of the Test 2 loop followed by a tail. -/
theorem writesOf_writeLoop_append (ids : List String) (tail : List Action) :
    writesOf (test2WriteLoop ids ++ tail) = ids ++ writesOf tail := by
  induction ids with
  | nil => simp [test2WriteLoop]
  | cons a l ih => simp [test2WriteLoop, writesOf, ih]

/-- Helper: the Test 2 write loop keeps every write 100 ms before the next
action, for any tail that is itself spaced. -/
theorem writesSpacedBy_writeLoop (ids : List String) (tail : List Action)
    (htail : writesSpacedBy 100 tail = true) :
    writesSpacedBy 100 (test2WriteLoop ids ++ tail) = true := by
  induction ids with
  | nil => simpa [test2WriteLoop]
  | cons a l ih =>
      cases l with
      | nil => simp [test2WriteLoop, writesSpacedBy, htail]
      | cons b m =>
          simp [test2WriteLoop, writesSpacedBy] at ih ⊢
          exact ih

/-- Helper: the JS success rate `(n / 10) * 100` equals 100 exactly for a
count of 10. -/
theorem test2Rate_eq_100_iff (n : Nat) :
    ((n : ℚ) / (totalEvents : ℚ) * 100 = 100) ↔ n = 10 := by
  have h10 : ((totalEvents : Nat) : ℚ) = 10 := by norm_num [totalEvents]
  rw [h10, div_mul_eq_mul_div, div_eq_iff (by norm_num : (10:ℚ) ≠ 0)]
  constructor
  · intro h
    have : (n : ℚ) = 10 := by linarith
    exact_mod_cast this
  · intro h; subst h; norm_num

/-- C2: Test 1 passes iff the first event's elapsed time is at most
3000 ms; with no arrival inside the 5000 ms hard wait it fails with the
timeout message and no duration; an arrival strictly between 3000 and
5000 ms fails reporting the measured time, not the timeout message. -/
theorem test1_verdict_spec (a : Option Nat) :
    ((runTest1 { insertError := none, arrival := a }).outcome.status =
        TestStatus.passed ↔ ∃ t, a = some t ∧ t ≤ 3000) ∧
    (a = none →
      (runTest1 { insertError := none, arrival := a }).outcome =
        { status := TestStatus.failed, duration := none,
          details := some ("No notification received within 5 seconds") }) ∧
    (∀ t, a = some t → 3000 < t → t < 5000 →
      (runTest1 { insertError := none, arrival := a }).outcome =
        { status := TestStatus.failed, duration := some t,
          details := some ("Response time " ++ toString t ++
            "ms exceeded 3 second limit") }) := by
  refine ⟨?_, ?_, ?_⟩
  · cases a with
    | none => simp [runTest1]
    | some t => by_cases h : t ≤ 3000 <;> simp [runTest1, h]
  · rintro rfl; rfl
  · rintro t rfl h1 _
    simp [runTest1, Nat.not_le.mpr h1]

/-- Witness for C2: an arrival at 4000 ms — between the 3000 ms constraint
and the 5000 ms hard wait — fails with the measured elapsed time. -/
theorem test1_verdict_spec_witness :
    (runTest1 { insertError := none, arrival := some 4000 }).outcome =
      { status := TestStatus.failed, duration := some 4000,
        details := some ("Response time " ++ toString 4000 ++
          "ms exceeded 3 second limit") } :=
  (test1_verdict_spec (some 4000)).2.2 4000 rfl (by omega) (by omega)

/-- Helper: the status Test 2 reports, as the `successRate === 100`
conditional. -/
theorem runTest2_status (events : List String) :
    (runTest2 { insertError := none, events := events }).outcome.status =
      if ((countMultiTagged events : ℚ) / (totalEvents : ℚ) * 100 = 100)
      then TestStatus.passed else TestStatus.failed := rfl

/-- C3: Test 2 issues exactly ten writes, all tagged `MULTI-TEST-`, each
followed by the fixed 100 ms delay; after the write loop come the fixed
3000 ms grace wait and the channel release; the verdict is `passed` iff
exactly ten tagged events were counted, and the detail message reports the
count and the delivery percentage on both verdicts. -/
theorem test2_spec (now : Nat) (events : List String) :
    writesOf (test2Trace now) = multiWriteIds now ∧
    (writesOf (test2Trace now)).length = totalEvents ∧
    (∀ s ∈ writesOf (test2Trace now), jsStartsWith s multiTag = true) ∧
    writesSpacedBy 100 (test2Trace now) = true ∧
    test2Trace now =
      (Action.openChannel ("test-multiple") :: Action.wait 500 ::
        test2WriteLoop (multiWriteIds now)) ++
        [Action.wait 3000, Action.closeChannel ("test-multiple")] ∧
    ((runTest2 { insertError := none, events := events }).outcome.status =
        TestStatus.passed ↔ countMultiTagged events = totalEvents) ∧
    (runTest2 { insertError := none, events := events }).outcome.details =
      some (test2Details (countMultiTagged events)) := by
  have hwrites : writesOf (test2Trace now) = multiWriteIds now := by
    have h0 : writesOf (test2Trace now) =
        writesOf (test2WriteLoop (multiWriteIds now) ++
          [Action.wait 3000, Action.closeChannel ("test-multiple")]) := rfl
    rw [h0, writesOf_writeLoop_append]
    simp [writesOf]
  refine ⟨hwrites, ?_, ?_, ?_, ?_, ?_, rfl⟩
  · simp [hwrites, multiWriteIds, totalEvents]
  · rw [hwrites]; exact multiWriteIds_tagged now
  · simp [test2Trace, writesSpacedBy, writesSpacedBy_writeLoop]
  · simp [test2Trace]
  · rw [runTest2_status]
    by_cases hp : ((countMultiTagged events : ℚ) / (totalEvents : ℚ) * 100 = 100)
    · rw [if_pos hp]
      simp [(test2Rate_eq_100_iff _).mp hp, totalEvents]
    · have hn : countMultiTagged events ≠ 10 :=
        fun h => hp ((test2Rate_eq_100_iff _).mpr h)
      rw [if_neg hp]
      simp [totalEvents, hn]

/-- Witness for C3: the ten writes of a concrete run, delivered exactly
once each, produce a `passed` verdict; a concrete written id carries the
tag. -/
theorem test2_spec_witness :
    (runTest2 { insertError := none, events := multiWriteIds 0 }).outcome.status =
      TestStatus.passed ∧
    jsStartsWith ("MULTI-TEST-0-0") multiTag = true := by
  constructor
  · exact ((test2_spec 0 (multiWriteIds 0)).2.2.2.2.2.1).mpr (by decide)
  · exact (test2_spec 0 (multiWriteIds 0)).2.2.1 ("MULTI-TEST-0-0") (by decide)

/-- C4: Test 3 passes iff at least one `NET-TEST-AFTER-`-tagged event was
observed on the freshly created subscription; with zero after-tagged
events it fails with the message-loss message. -/
theorem test3_verdict_spec (events : List String) :
    ((runTest3 { err := Test3Error.ok, events := events }).outcome.status =
        TestStatus.passed ↔ 0 < countAfterTagged events) ∧
    (countAfterTagged events = 0 →
      (runTest3 { err := Test3Error.ok, events := events }).outcome =
        { status := TestStatus.failed, duration := none,
          details := some ("Message loss detected after network restoration") }) := by
  constructor
  · by_cases h : 0 < countAfterTagged events <;> simp [runTest3, h]
  · intro h
    simp [runTest3, h]

/-- Witness for C4: zero delivered after-events yield the failed
message-loss verdict. -/
theorem test3_verdict_spec_witness :
    (runTest3 { err := Test3Error.ok, events := [] }).outcome =
      { status := TestStatus.failed, duration := none,
        details := some ("Message loss detected after network restoration") } :=
  (test3_verdict_spec []).2 rfl

/-- C5: Tests 1 and 2 release their channel on every path (event arrival,
timeout, and the `catch` path), but Test 3's `catch` block has no
`removeChannel` call: on the run where the post-reconnect insert throws,
the channel was created and is never released, so that test leaks its
subscription on its error path. -/
theorem test3_catch_leaks_channel :
    (runTest3 { err := Test3Error.failAfterInsert, events := [] }).channelCreated = true ∧
    (runTest3 { err := Test3Error.failAfterInsert, events := [] }).channelReleased = false ∧
    (∀ e : Test1Exec, (runTest1 e).channelReleased = true) ∧
    (∀ e : Test2Exec, (runTest2 e).channelReleased = true) ∧
    (∀ e : Test3Exec, (runTest3 e).channelReleased =
      decide (e.err = Test3Error.ok)) := by
  refine ⟨rfl, rfl, ?_, ?_, ?_⟩
  · intro e
    rcases e with ⟨ie, a⟩
    cases ie with
    | some m => rfl
    | none =>
        cases a with
        | none => rfl
        | some t => by_cases h : t ≤ 3000 <;> simp [runTest1, h]
  · intro e
    rcases e with ⟨ie, evs⟩
    cases ie with
    | some m => rfl
    | none => rfl
  · intro e
    rcases e with ⟨er, evs⟩
    cases er <;> rfl

/-- Helper: Test 1 always finishes in a terminal status. -/
theorem runTest1_terminal (e : Test1Exec) :
    (runTest1 e).outcome.status = TestStatus.passed ∨
    (runTest1 e).outcome.status = TestStatus.failed := by
  rcases e with ⟨ie, a⟩
  cases ie with
  | some m => right; rfl
  | none =>
      cases a with
      | none => right; rfl
      | some t =>
          by_cases h : t ≤ 3000
          · left; simp [runTest1, h]
          · right; simp [runTest1, h]

/-- Helper: Test 2 always finishes in a terminal status. -/
theorem runTest2_terminal (e : Test2Exec) :
    (runTest2 e).outcome.status = TestStatus.passed ∨
    (runTest2 e).outcome.status = TestStatus.failed := by
  rcases e with ⟨ie, evs⟩
  cases ie with
  | some m => right; rfl
  | none =>
      by_cases hp : ((countMultiTagged evs : ℚ) / (totalEvents : ℚ) * 100 = 100)
      · left; simp [runTest2, hp]
      · right; simp [runTest2, hp]

/-- Helper: Test 3 always finishes in a terminal status. -/
theorem runTest3_terminal (e : Test3Exec) :
    (runTest3 e).outcome.status = TestStatus.passed ∨
    (runTest3 e).outcome.status = TestStatus.failed := by
  rcases e with ⟨er, evs⟩
  cases er with
  | failBeforeInsert => right; rfl
  | failAfterInsert => right; rfl
  | ok =>
      by_cases h : 0 < countAfterTagged evs
      · left; simp [runTest3, h]
      · right; simp [runTest3, h]

/-- C6: the suite run first resets every entry to `idle` with cleared
duration and details, composes the three tests strictly in order on the
reset state, and leaves every entry of the suite in a terminal status —
`passed` or `failed`, never `running` — whatever the three tests'
executions were. -/
theorem runAllTests_spec (ts : List TestEntry) (ex : SuiteExec) :
    (∀ t ∈ resetTests ts, t.status = TestStatus.idle ∧ t.duration = none ∧
      t.details = none) ∧
    runAllTests ts ex =
      applyOutcome ("Network Robustness") (runTest3 ex.e3).outcome
        (applyOutcome ("Reliability Under Multiple Alerts") (runTest2 ex.e2).outcome
          (applyOutcome ("Notification Response Time") (runTest1 ex.e1).outcome
            (resetTests ts))) ∧
    (∀ t ∈ runAllTests initialTests ex,
      t.status = TestStatus.passed ∨ t.status = TestStatus.failed) := by
  refine ⟨?_, rfl, ?_⟩
  · intro t ht
    simp only [resetTests, List.mem_map] at ht
    obtain ⟨u, _, rfl⟩ := ht
    exact ⟨rfl, rfl, rfl⟩
  · intro t ht
    have h1 := runTest1_terminal ex.e1
    have h2 := runTest2_terminal ex.e2
    have h3 := runTest3_terminal ex.e3
    simp only [runAllTests, resetTests, initialTests, applyOutcome,
      List.map_cons, List.map_nil] at ht
    simp at ht
    rcases ht with rfl | rfl | rfl
    · simpa using h1
    · simpa using h2
    · simpa using h3

/-- Witness for C6: on a concrete suite execution where every test takes
its error path, the Test 1 entry of the final state is terminal. -/
theorem runAllTests_spec_witness :
    suiteWitnessEntry.status = TestStatus.passed ∨
    suiteWitnessEntry.status = TestStatus.failed :=
  (runAllTests_spec initialTests suiteWitnessExec).2.2 suiteWitnessEntry
    (by decide)

end FrostAlert
